import Mathlib

/-!
Shallow embedding of `src/main.rs` of the `rust-system-details` repository:
a one-shot diagnostic reporter that reads GPU telemetry (NVML), host
telemetry (sysinfo), and fetches weather data from two HTTP endpoints, then
prints everything.

External libraries (NVML, sysinfo, reqwest, serde_json's text-level parser)
are modelled as oracles supplied in an environment; the repository's own
control flow, data structures and arithmetic are translated directly.
Floating point (`f64`/`f32`) is modelled by `ℚ`; `u64`/`u32` by `Nat`;
`i32` by `Int` with the i32 range checked where serde would check it.
-/

set_option autoImplicit false

namespace SysDetails

/-! ### JSON model

A small JSON value type standing for `serde_json`'s parsed representation.
The derived `Deserialize` instances of the weather structs in `main.rs`
are modelled below as decoders over this type: every declared field is
required, a missing field or a wrong type is a decode failure, unknown
fields are ignored (serde's default). -/

inductive Json where
  | null
  | bool (value : Bool)
  | num (value : Int)
  | str (value : String)
  | arr (items : List Json)
  | obj (entries : List (String × Json))

def Json.getField : Json → String → Option Json
  | .obj fields, key => fields.lookup key
  | _, _ => none

def Json.asStr : Json → Option String
  | .str s => some s
  | _ => none

/-- Decode an `i32` field: a JSON number inside the `i32` range. -/
def Json.asI32 : Json → Option Int
  | .num n => if -2147483648 ≤ n ∧ n ≤ 2147483647 then some n else none
  | _ => none

def Json.asArr : Json → Option (List Json)
  | .arr items => some items
  | _ => none

def getStr (j : Json) (key : String) : Option String :=
  (j.getField key).bind Json.asStr

def getI32 (j : Json) (key : String) : Option Int :=
  (j.getField key).bind Json.asI32

def getArr (j : Json) (key : String) : Option (List Json) :=
  (j.getField key).bind Json.asArr

/-! ### Weather data structures (from `main.rs`, lines 14-124) -/

structure Alarm where
  alarmContent : String
  alarmDesc : String
  alarmId : String
  alarmLevelNo : String
  alarmLevelNoDesc : String
  alarmType : String
  alarmTypeDesc : String
  precaution : String
  publishTime : String

structure Index where
  abbreviation : String
  «alias» : String
  content : String
  level : String
  name : String

structure Pm25 where
  advice : String
  aqi : String
  citycount : Int
  cityrank : Int
  co : String
  color : String
  level : String
  no2 : String
  o3 : String
  pm10 : String
  pm25 : String
  quality : String
  so2 : String
  timestamp : String
  upDateTime : String

structure Realtime where
  img : String
  sD : String
  sendibleTemp : String
  temp : String
  time : String
  wD : String
  wS : String
  weather : String
  ziwaixian : String

structure Weather3HoursDetailsInfo where
  endTime : String
  highestTemperature : String
  img : String
  isRainFall : String
  lowerestTemperature : String
  precipitation : String
  startTime : String
  wd : String
  weather : String
  ws : String

structure WeatherDetailsInfo where
  publishTime : String
  weather3HoursDetailsInfos : List Weather3HoursDetailsInfo

structure Weather where
  aqi : String
  date : String
  img : String
  sun_down_time : String
  sun_rise_time : String
  temp_day_c : String
  temp_day_f : String
  temp_night_c : String
  temp_night_f : String
  wd : String
  weather : String
  week : String
  ws : String

structure Value where
  alarms : List Alarm
  city : String
  cityid : Int
  indexes : List Index
  pm25 : Pm25
  provinceName : String
  realtime : Realtime
  weatherDetailsInfo : WeatherDetailsInfo
  weathers : List Weather

structure ApiResponse where
  code : String
  message : String
  redirect : String
  value : List Value

/-! ### Decoders modelling the derived `Deserialize` instances -/

def decodeAlarm (j : Json) : Option Alarm := do
  let alarmContent ← getStr j "alarmContent"
  let alarmDesc ← getStr j "alarmDesc"
  let alarmId ← getStr j "alarmId"
  let alarmLevelNo ← getStr j "alarmLevelNo"
  let alarmLevelNoDesc ← getStr j "alarmLevelNoDesc"
  let alarmType ← getStr j "alarmType"
  let alarmTypeDesc ← getStr j "alarmTypeDesc"
  let precaution ← getStr j "precaution"
  let publishTime ← getStr j "publishTime"
  pure ⟨alarmContent, alarmDesc, alarmId, alarmLevelNo, alarmLevelNoDesc,
    alarmType, alarmTypeDesc, precaution, publishTime⟩

def decodeIndex (j : Json) : Option Index := do
  let abbreviation ← getStr j "abbreviation"
  let aliasField ← getStr j "alias"
  let content ← getStr j "content"
  let level ← getStr j "level"
  let name ← getStr j "name"
  pure ⟨abbreviation, aliasField, content, level, name⟩

def decodePm25 (j : Json) : Option Pm25 := do
  let advice ← getStr j "advice"
  let aqi ← getStr j "aqi"
  let citycount ← getI32 j "citycount"
  let cityrank ← getI32 j "cityrank"
  let co ← getStr j "co"
  let color ← getStr j "color"
  let level ← getStr j "level"
  let no2 ← getStr j "no2"
  let o3 ← getStr j "o3"
  let pm10 ← getStr j "pm10"
  let pm25 ← getStr j "pm25"
  let quality ← getStr j "quality"
  let so2 ← getStr j "so2"
  let timestamp ← getStr j "timestamp"
  let upDateTime ← getStr j "upDateTime"
  pure ⟨advice, aqi, citycount, cityrank, co, color, level, no2, o3, pm10,
    pm25, quality, so2, timestamp, upDateTime⟩

def decodeRealtime (j : Json) : Option Realtime := do
  let img ← getStr j "img"
  let sD ← getStr j "sD"
  let sendibleTemp ← getStr j "sendibleTemp"
  let temp ← getStr j "temp"
  let time ← getStr j "time"
  let wD ← getStr j "wD"
  let wS ← getStr j "wS"
  let weather ← getStr j "weather"
  let ziwaixian ← getStr j "ziwaixian"
  pure ⟨img, sD, sendibleTemp, temp, time, wD, wS, weather, ziwaixian⟩

def decodeWeather3HoursDetailsInfo (j : Json) : Option Weather3HoursDetailsInfo := do
  let endTime ← getStr j "endTime"
  let highestTemperature ← getStr j "highestTemperature"
  let img ← getStr j "img"
  let isRainFall ← getStr j "isRainFall"
  let lowerestTemperature ← getStr j "lowerestTemperature"
  let precipitation ← getStr j "precipitation"
  let startTime ← getStr j "startTime"
  let wd ← getStr j "wd"
  let weather ← getStr j "weather"
  let ws ← getStr j "ws"
  pure ⟨endTime, highestTemperature, img, isRainFall, lowerestTemperature,
    precipitation, startTime, wd, weather, ws⟩

def decodeWeatherDetailsInfo (j : Json) : Option WeatherDetailsInfo := do
  let publishTime ← getStr j "publishTime"
  let items ← getArr j "weather3HoursDetailsInfos"
  let weather3HoursDetailsInfos ← items.mapM decodeWeather3HoursDetailsInfo
  pure ⟨publishTime, weather3HoursDetailsInfos⟩

def decodeWeather (j : Json) : Option Weather := do
  let aqi ← getStr j "aqi"
  let date ← getStr j "date"
  let img ← getStr j "img"
  let sun_down_time ← getStr j "sun_down_time"
  let sun_rise_time ← getStr j "sun_rise_time"
  let temp_day_c ← getStr j "temp_day_c"
  let temp_day_f ← getStr j "temp_day_f"
  let temp_night_c ← getStr j "temp_night_c"
  let temp_night_f ← getStr j "temp_night_f"
  let wd ← getStr j "wd"
  let weather ← getStr j "weather"
  let week ← getStr j "week"
  let ws ← getStr j "ws"
  pure ⟨aqi, date, img, sun_down_time, sun_rise_time, temp_day_c, temp_day_f,
    temp_night_c, temp_night_f, wd, weather, week, ws⟩

def decodeValue (j : Json) : Option Value := do
  let alarmsJson ← getArr j "alarms"
  let alarms ← alarmsJson.mapM decodeAlarm
  let city ← getStr j "city"
  let cityid ← getI32 j "cityid"
  let indexesJson ← getArr j "indexes"
  let indexes ← indexesJson.mapM decodeIndex
  let pm25 ← (j.getField "pm25").bind decodePm25
  let provinceName ← getStr j "provinceName"
  let realtime ← (j.getField "realtime").bind decodeRealtime
  let weatherDetailsInfo ← (j.getField "weatherDetailsInfo").bind decodeWeatherDetailsInfo
  let weathersJson ← getArr j "weathers"
  let weathers ← weathersJson.mapM decodeWeather
  pure ⟨alarms, city, cityid, indexes, pm25, provinceName, realtime,
    weatherDetailsInfo, weathers⟩

/-- Model of `serde_json::from_str::<ApiResponse>` applied to an already
text-parsed JSON value (`main.rs` line 355). -/
def decodeApiResponse (j : Json) : Option ApiResponse := do
  let code ← getStr j "code"
  let message ← getStr j "message"
  let redirect ← getStr j "redirect"
  let valuesJson ← getArr j "value"
  let value ← valuesJson.mapM decodeValue
  pure ⟨code, message, redirect, value⟩

/-! ### Pure helpers (`main.rs` lines 406-419) -/

/-- `bytes_to_gb` (`main.rs` lines 406-410): `bytes as f64 / 1024_f64.powi(3)`,
with `f64` modelled by `ℚ` (the rational model is exact; IEEE-754 rounding of
the `u64 → f64` conversion is not captured). -/
def bytes_to_gb (bytes : Nat) : ℚ :=
  (bytes : ℚ) / 1024 ^ 3

/-- `convert_seconds` (`main.rs` lines 412-419), on `u64` modelled by `Nat`
(the function only divides, so no overflow is possible). -/
def convert_seconds (seconds : Nat) : Nat × Nat × Nat × Nat :=
  let days := seconds / (24 * 3600)
  let hours := (seconds / 3600) % 24
  let minutes := (seconds / 60) % 60
  let remaining_seconds := seconds % 60
  (days, hours, minutes, remaining_seconds)

/-! ### GPU telemetry reader (`main.rs` lines 126-165)

The NVML library is external; it is modelled as an oracle: `NvmlEnv` says
whether `Nvml::init` succeeds and which device (if any) index 0 returns, and
`GpuDevice` gives each per-device query's result (`none` = the query fails).
Per the spec's error taxonomy, library errors are modelled as `GpuError`:
`InitFailed` for `Nvml::init`, `DeviceFailed` for `device_by_index(0)`, and
`QueryFailed f` for the per-field getters. -/

inductive GpuField where
  | powerLimit
  | memoryInfo
  | powerUsage
  | temperature
  | graphicsClock
  | memoryClock
  | name
  | numCores
  | memoryBusWidth
  deriving DecidableEq

inductive GpuError where
  | InitFailed
  | DeviceFailed
  | QueryFailed (f : GpuField)
  deriving DecidableEq

/-- Oracle for the per-device NVML getters; `none` means the call fails. -/
structure GpuDevice where
  enforced_power_limit : Option Nat
  memory_info : Option (Nat × Nat)
  power_usage : Option Nat
  temperature : Option Nat
  graphics_clock : Option Nat
  memory_clock : Option Nat
  name : Option String
  num_cores : Option Nat
  memory_bus_width : Option Nat

structure NvmlEnv where
  initOk : Bool
  device0 : Option GpuDevice

/-- Whether the sub-query for field `f` on device `dev` succeeds. -/
def queryOk (dev : GpuDevice) : GpuField → Bool
  | .powerLimit => dev.enforced_power_limit.isSome
  | .memoryInfo => dev.memory_info.isSome
  | .powerUsage => dev.power_usage.isSome
  | .temperature => dev.temperature.isSome
  | .graphicsClock => dev.graphics_clock.isSome
  | .memoryClock => dev.memory_clock.isSome
  | .name => dev.name.isSome
  | .numCores => dev.num_cores.isSome
  | .memoryBusWidth => dev.memory_bus_width.isSome

structure GpuInfo where
  name : String
  num_cores : Nat
  memory_bus_width : Nat
  core_clock : Nat
  memory_clock : Nat
  gpu_temperature : Nat
  power_usage : ℚ
  power_limit : Nat
  memory_used : ℚ
  memory_total : ℚ

/-- `get_gpu_info` (`main.rs` lines 140-165). Each `?` of the source is a
match; queries are made in source order and the first failure propagates. -/
def get_gpu_info (env : NvmlEnv) : Except GpuError GpuInfo :=
  if env.initOk = false then .error .InitFailed else
  match env.device0 with
  | none => .error .DeviceFailed
  | some device =>
  match device.enforced_power_limit with
  | none => .error (.QueryFailed .powerLimit)
  | some power_limit =>
  match device.memory_info with
  | none => .error (.QueryFailed .memoryInfo)
  | some memory_info =>
  match device.power_usage with
  | none => .error (.QueryFailed .powerUsage)
  | some power_usage =>
  match device.temperature with
  | none => .error (.QueryFailed .temperature)
  | some gpu_temperature =>
  match device.graphics_clock with
  | none => .error (.QueryFailed .graphicsClock)
  | some core_clock =>
  match device.memory_clock with
  | none => .error (.QueryFailed .memoryClock)
  | some memory_clock =>
  match device.name with
  | none => .error (.QueryFailed .name)
  | some name =>
  match device.num_cores with
  | none => .error (.QueryFailed .numCores)
  | some num_cores =>
  match device.memory_bus_width with
  | none => .error (.QueryFailed .memoryBusWidth)
  | some memory_bus_width =>
  .ok {
    name := name
    num_cores := num_cores
    memory_bus_width := memory_bus_width
    core_clock := core_clock
    memory_clock := memory_clock
    gpu_temperature := gpu_temperature
    power_usage := (power_usage : ℚ) / 1000
    power_limit := power_limit / 1000
    memory_used := (memory_info.1 : ℚ) / (1024 * 1024 * 1024)
    memory_total := (memory_info.2 : ℚ) / (1024 * 1024 * 1024)
  }

/-! ### Host telemetry reader (`main.rs` lines 167-264)

The sysinfo library is an oracle `SysEnv`: raw byte counts, the four
optional identity strings, the uptime, the raw disk list and the sampled
per-core CPU usage percentages. -/

inductive DiskKind where
  | HDD
  | SSD
  | Unknown (v : Int)
  deriving DecidableEq

/-- Raw per-disk data as the sysinfo library reports it. -/
structure DiskRaw where
  name : String
  kind : DiskKind
  file_system : String
  mount_point : String
  total_space : Nat
  available_space : Nat

structure SysEnv where
  total_memory : Nat
  used_memory : Nat
  total_swap : Nat
  used_swap : Nat
  system_name : Option String
  kernel_version : Option String
  os_version : Option String
  host_name : Option String
  uptime : Nat
  disks : List DiskRaw
  cpus : List ℚ

structure DiskInfo where
  name : String
  kind : DiskKind
  file_system : String
  mount_point : String
  total_space : ℚ
  available_space : ℚ

structure SystemInfo where
  total_memory : ℚ
  used_memory : ℚ
  total_swap : ℚ
  used_swap : ℚ
  system_name : Option String
  kernel_version : Option String
  os_version : Option String
  host_name : Option String
  uptime : Nat
  disks : List DiskInfo
  average_cpu_usage : ℚ

/-- `os_str_to_option_string` (`main.rs` lines 239-241); `to_string_lossy`
on an already-valid string is the identity. -/
def os_str_to_option_string (os_str : Option String) : Option String :=
  os_str.map id

/-- `path_to_string` (`main.rs` lines 243-245). -/
def path_to_string (path : String) : String :=
  path

/-- One iteration of the loop in `get_disk_info`: the two `.unwrap()` calls
are modelled by `Option` propagation (`none` = panic). Their arguments are
`Option::from` of a present value, so they never actually fail. -/
def diskInfoOf (disk : DiskRaw) : Option DiskInfo := do
  let name ← os_str_to_option_string (some disk.name)
  let kind ← some disk.kind
  let file_system ← os_str_to_option_string (some disk.file_system)
  pure {
    name := name
    kind := kind
    file_system := file_system
    mount_point := path_to_string disk.mount_point
    total_space := bytes_to_gb disk.total_space
    available_space := bytes_to_gb disk.available_space
  }

/-- `get_disk_info` (`main.rs` lines 247-264): the `for` loop pushing one
record per disk; `none` models a panic of one of the `unwrap`s inside the
loop. -/
def get_disk_info : List DiskRaw → Option (List DiskInfo)
  | [] => some []
  | disk :: rest => do
    let info ← diskInfoOf disk
    let restInfos ← get_disk_info rest
    pure (info :: restInfos)

/-- The CPU-usage averaging of `get_system_info` (`main.rs` lines 214-222):
sum the per-core usages left to right, divide by the core count unless the
core list is empty, in which case the average is defined as `0.0`. -/
def averageCpuUsage (cpus : List ℚ) : ℚ :=
  let total_cpu_usage := cpus.foldl (fun acc u => acc + u) 0
  if cpus.isEmpty = false then total_cpu_usage / (cpus.length : ℚ) else 0

/-- `get_system_info` (`main.rs` lines 192-237); `none` models a panic
inside `get_disk_info`. -/
def get_system_info (env : SysEnv) : Option SystemInfo := do
  let disks ← get_disk_info env.disks
  pure {
    total_memory := bytes_to_gb env.total_memory
    used_memory := bytes_to_gb env.used_memory
    total_swap := bytes_to_gb env.total_swap
    used_swap := bytes_to_gb env.used_swap
    system_name := env.system_name
    kernel_version := env.kernel_version
    os_version := env.os_version
    host_name := env.host_name
    uptime := env.uptime
    disks := disks
    average_cpu_usage := averageCpuUsage env.cpus
  }

/-! ### HTTP layer and the model of `main` (`main.rs` lines 266-404)

The reqwest client is an oracle: each `send()` either returns a response or
a transport-level error. Reading a response body (`text()`) can also fail;
for the second request the oracle additionally provides the result of
serde_json's text-level parse of the body (`none` = syntactically invalid
JSON). `main` is modelled as a function from the whole environment to the
list of emitted report events together with an optional abort: every
`unwrap()` of the source that can fail becomes an `Abort` constructor, and
an abort cuts the run short exactly where the source would panic. -/

structure TransportError where
  msg : String
  deriving DecidableEq

/-- Response of the auxiliary weather request (`main.rs` lines 318-331):
status plus the body text (`none` = `text()` fails, so its `unwrap` panics). -/
structure Resp1 where
  status : Nat
  text : Option String

/-- Body of the city-weather response: the raw text together with the result
of serde_json's text-level parse of it. -/
structure Body2 where
  raw : String
  parsed : Option Json

/-- Response of the city-weather request (`main.rs` lines 343-347):
status plus the body (`none` = `text()` fails). -/
structure Resp2 where
  status : Nat
  body : Option Body2

/-- `StatusCode::is_success`: 2xx. -/
def isSuccess (status : Nat) : Bool :=
  200 ≤ status && status ≤ 299

/-- The whole external world `main` interacts with. `printUptime` is the
value returned by the second, independent `System::uptime()` call made in
the `println!` at `main.rs` line 295. -/
structure Env where
  nvml : NvmlEnv
  sys : SysEnv
  printUptime : Nat
  send1 : Except TransportError Resp1
  send2 : Except TransportError Resp2

/-- Observable report events, one per print block of `main`. -/
inductive Event where
  | gpuReport (g : GpuInfo)
  | gpuErrorLine (e : GpuError)
  | systemReport (s : SystemInfo)
  | uptimeLine (raw : Nat) (dhms : Nat × Nat × Nat × Nat)
  | fetch1Body (body : String)
  | fetch1BadStatus (status : Nat)
  | fetch2Report (r : ApiResponse)
  | fetch2BadStatus (status : Nat)

/-- Reasons the process aborts: each corresponds to one fallible `unwrap()`
in `main` (transport errors of the two `send()`s, body-read errors of the
two `text()`s, and the serde decode of the second body). `hostRead` marks
the never-occurring panic modelled inside `get_system_info`. -/
inductive Abort where
  | hostRead
  | transport1 (e : TransportError)
  | textRead1
  | transport2 (e : TransportError)
  | textRead2
  | jsonDecode

/-- Events emitted so far, plus `some a` if the run panicked. -/
structure RunOut where
  events : List Event
  abort : Option Abort

/-- Sequencing: if the first part aborted, the second never runs. -/
def seqRun (a b : RunOut) : RunOut :=
  match a.abort with
  | some _ => a
  | none => ⟨a.events ++ b.events, b.abort⟩

/-- The GPU block of `main` (lines 267-281): print the report on success,
print a single error line on failure; never aborts. -/
def gpuRun (env : Env) : RunOut :=
  match get_gpu_info env.nvml with
  | .ok g => ⟨[.gpuReport g], none⟩
  | .error e => ⟨[.gpuErrorLine e], none⟩

/-- The system block of `main` (lines 283-309): the report printed from the
collected snapshot, and the uptime line whose raw seconds come from a fresh
`System::uptime()` call while the decomposition comes from the snapshot. -/
def sysRun (env : Env) : RunOut :=
  match get_system_info env.sys with
  | none => ⟨[], some .hostRead⟩
  | some info =>
    ⟨[.systemReport info, .uptimeLine env.printUptime (convert_seconds info.uptime)], none⟩

/-- The auxiliary weather fetch (lines 312-332). -/
def fetch1Run (env : Env) : RunOut :=
  match env.send1 with
  | .error e => ⟨[], some (.transport1 e)⟩
  | .ok r =>
    if isSuccess r.status then
      match r.text with
      | none => ⟨[], some .textRead1⟩
      | some body => ⟨[.fetch1Body body], none⟩
    else ⟨[.fetch1BadStatus r.status], none⟩

/-- The city-weather fetch (lines 335-403): on 2xx the body is read and
serde-decoded (both `unwrap`ped); on non-2xx only the status is printed. -/
def fetch2Run (env : Env) : RunOut :=
  match env.send2 with
  | .error e => ⟨[], some (.transport2 e)⟩
  | .ok r =>
    if isSuccess r.status then
      match r.body with
      | none => ⟨[], some .textRead2⟩
      | some body =>
        match body.parsed.bind decodeApiResponse with
        | none => ⟨[], some .jsonDecode⟩
        | some api => ⟨[.fetch2Report api], none⟩
    else ⟨[.fetch2BadStatus r.status], none⟩

/-- Everything `main` does after the GPU block. -/
def restRun (env : Env) : RunOut :=
  seqRun (sysRun env) (seqRun (fetch1Run env) (fetch2Run env))

/-- Model of `main` (`main.rs` lines 266-404). -/
def mainRun (env : Env) : RunOut :=
  seqRun (gpuRun env) (restRun env)

/-- The auxiliary weather request was attempted: it produced output or the
run aborted inside it. -/
def ranFetch1 (r : RunOut) : Prop :=
  (∃ b, Event.fetch1Body b ∈ r.events) ∨
  (∃ s, Event.fetch1BadStatus s ∈ r.events) ∨
  (∃ e, r.abort = some (.transport1 e)) ∨
  r.abort = some .textRead1

/-- The city-weather request was attempted. -/
def ranFetch2 (r : RunOut) : Prop :=
  (∃ api, Event.fetch2Report api ∈ r.events) ∨
  (∃ s, Event.fetch2BadStatus s ∈ r.events) ∨
  (∃ e, r.abort = some (.transport2 e)) ∨
  r.abort = some .textRead2 ∨
  r.abort = some .jsonDecode

/-! ### Explicit forms and concrete test environments -/

/-- The disk record `get_disk_info` builds for one raw disk, written out. -/
def diskInfoOfRaw (d : DiskRaw) : DiskInfo :=
  { name := d.name
    kind := d.kind
    file_system := d.file_system
    mount_point := d.mount_point
    total_space := bytes_to_gb d.total_space
    available_space := bytes_to_gb d.available_space }

/-- The snapshot `get_system_info` builds, written out field by field:
optional identity fields pass through unchanged, byte counts are converted
to GiB, disks are converted one-for-one. -/
def systemInfoOf (env : SysEnv) : SystemInfo :=
  { total_memory := bytes_to_gb env.total_memory
    used_memory := bytes_to_gb env.used_memory
    total_swap := bytes_to_gb env.total_swap
    used_swap := bytes_to_gb env.used_swap
    system_name := env.system_name
    kernel_version := env.kernel_version
    os_version := env.os_version
    host_name := env.host_name
    uptime := env.uptime
    disks := env.disks.map diskInfoOfRaw
    average_cpu_usage := averageCpuUsage env.cpus }

/-- A GPU device on which every sub-query succeeds. -/
def devAllOk : GpuDevice :=
  { enforced_power_limit := some 200000
    memory_info := some (4294967296, 8589934592)
    power_usage := some 150000
    temperature := some 65
    graphics_clock := some 1500
    memory_clock := some 7000
    name := some "TestGPU"
    num_cores := some 10
    memory_bus_width := some 256 }

/-- `devAllOk` with the name query failing and everything else succeeding. -/
def devNameFails : GpuDevice :=
  { devAllOk with name := none }

/-- The snapshot `get_gpu_info` produces on `devAllOk`. -/
def gpuInfoOk : GpuInfo :=
  { name := "TestGPU"
    num_cores := 10
    memory_bus_width := 256
    core_clock := 1500
    memory_clock := 7000
    gpu_temperature := 65
    power_usage := ((150000 : Nat) : ℚ) / 1000
    power_limit := 200000 / 1000
    memory_used := ((4294967296 : Nat) : ℚ) / (1024 * 1024 * 1024)
    memory_total := ((8589934592 : Nat) : ℚ) / (1024 * 1024 * 1024) }

/-- A host environment with no disks and no CPU cores reported. -/
def sysEnvA : SysEnv :=
  { total_memory := 0
    used_memory := 0
    total_swap := 0
    used_swap := 0
    system_name := none
    kernel_version := none
    os_version := none
    host_name := none
    uptime := 0
    disks := []
    cpus := [] }

/-- `sysEnvA` with two CPU cores reporting 10% and 30% usage. -/
def sysEnvB : SysEnv :=
  { sysEnvA with cpus := [10, 30] }

/-- A fully working environment: GPU healthy, both requests succeed with
2xx, the second body decodes (it is an object with the four required
fields, `value` an empty array). -/
def envBase : Env :=
  { nvml := ⟨true, some devAllOk⟩
    sys := sysEnvA
    printUptime := 5
    send1 := .ok ⟨200, some "aux-body"⟩
    send2 := .ok ⟨200, some ⟨"body2", some (Json.obj
      [("code", Json.str "0"), ("message", Json.str "ok"),
       ("redirect", Json.str ""), ("value", Json.arr [])])⟩⟩ }

/-- `envBase` with a failing GPU library initialization. -/
def envGpuFail : Env :=
  { envBase with nvml := ⟨false, none⟩ }

/-- `envBase` with a transport error on the first request. -/
def envSend1Fail : Env :=
  { envBase with send1 := .error ⟨"dns lookup failed"⟩ }

/-- `envBase` with a non-2xx first response and a transport error on the
second request. -/
def envSend2Fail : Env :=
  { envBase with
    send1 := .ok ⟨404, none⟩
    send2 := .error ⟨"tls handshake failed"⟩ }

/-- `envBase` with a non-2xx city-weather response. -/
def envBadStatus2 : Env :=
  { envBase with send2 := .ok ⟨503, some ⟨"oops", none⟩⟩ }

/-- `envBase` with a 2xx city-weather response whose body is an object
missing every required field, so the serde decode fails. -/
def envBadJson2 : Env :=
  { envBase with send2 := .ok ⟨200, some ⟨"x", some (Json.obj [])⟩⟩ }

/-! ### Helper lemmas -/

lemma diskInfoOf_eq (d : DiskRaw) : diskInfoOf d = some (diskInfoOfRaw d) :=
  rfl

lemma get_disk_info_eq (l : List DiskRaw) :
    get_disk_info l = some (l.map diskInfoOfRaw) := by
  induction l with
  | nil => rfl
  | cons d t ih => simp [get_disk_info, diskInfoOf_eq, ih]

lemma get_system_info_eq (env : SysEnv) :
    get_system_info env = some (systemInfoOf env) := by
  simp [get_system_info, get_disk_info_eq, systemInfoOf]

lemma seqRun_none {a b : RunOut} (h : a.abort = none) :
    seqRun a b = ⟨a.events ++ b.events, b.abort⟩ := by
  simp [seqRun, h]

lemma gpuRun_abort (env : Env) : (gpuRun env).abort = none := by
  cases h : get_gpu_info env.nvml <;> simp [gpuRun, h]

lemma sysRun_eq (env : Env) :
    sysRun env = ⟨[.systemReport (systemInfoOf env.sys),
      .uptimeLine env.printUptime (convert_seconds env.sys.uptime)], none⟩ := by
  simp [sysRun, get_system_info_eq, systemInfoOf]

lemma sysRun_abort (env : Env) : (sysRun env).abort = none := by
  rw [sysRun_eq]

lemma mainRun_eq (env : Env) :
    mainRun env =
      ⟨(gpuRun env).events ++
        ((sysRun env).events ++ (seqRun (fetch1Run env) (fetch2Run env)).events),
       (seqRun (fetch1Run env) (fetch2Run env)).abort⟩ := by
  rw [mainRun, restRun, seqRun_none (sysRun_abort env), seqRun_none (gpuRun_abort env)]

lemma gpuRun_shape (env : Env) :
    (∃ g, (gpuRun env).events = [.gpuReport g]) ∨
    (∃ e, (gpuRun env).events = [.gpuErrorLine e]) := by
  cases h : get_gpu_info env.nvml with
  | error e => exact .inr ⟨e, by simp [gpuRun, h]⟩
  | ok g => exact .inl ⟨g, by simp [gpuRun, h]⟩

lemma fetch1_shape (env : Env) (h : (fetch1Run env).abort = none) :
    (∃ b, (fetch1Run env).events = [.fetch1Body b]) ∨
    (∃ s, (fetch1Run env).events = [.fetch1BadStatus s]) := by
  rcases h1 : env.send1 with e | r
  · simp [fetch1Run, h1] at h
  · cases hst : isSuccess r.status with
    | true =>
      rcases ht : r.text with _ | b
      · simp [fetch1Run, h1, hst, ht] at h
      · exact .inl ⟨b, by simp [fetch1Run, h1, hst, ht]⟩
    | false => exact .inr ⟨r.status, by simp [fetch1Run, h1, hst]⟩

lemma fetch1_abort_shape (env : Env) (a : Abort)
    (h : (fetch1Run env).abort = some a) :
    (∃ e, a = .transport1 e) ∨ a = .textRead1 := by
  rcases h1 : env.send1 with e | r
  · simp [fetch1Run, h1] at h
    exact .inl ⟨e, h.symm⟩
  · cases hst : isSuccess r.status with
    | true =>
      rcases ht : r.text with _ | b
      · simp [fetch1Run, h1, hst, ht] at h
        exact .inr h.symm
      · simp [fetch1Run, h1, hst, ht] at h
    | false => simp [fetch1Run, h1, hst] at h

lemma fetch2_shape (env : Env) (h : (fetch2Run env).abort = none) :
    (∃ api, (fetch2Run env).events = [.fetch2Report api]) ∨
    (∃ s, (fetch2Run env).events = [.fetch2BadStatus s]) := by
  rcases h2 : env.send2 with e | r
  · simp [fetch2Run, h2] at h
  · cases hst : isSuccess r.status with
    | true =>
      rcases hb : r.body with _ | b
      · simp [fetch2Run, h2, hst, hb] at h
      · rcases hp : b.parsed.bind decodeApiResponse with _ | api
        · simp [fetch2Run, h2, hst, hb, hp] at h
        · exact .inl ⟨api, by simp [fetch2Run, h2, hst, hb, hp]⟩
    | false => exact .inr ⟨r.status, by simp [fetch2Run, h2, hst]⟩

lemma fetch2_abort_shape (env : Env) (a : Abort)
    (h : (fetch2Run env).abort = some a) :
    (∃ e, a = .transport2 e) ∨ a = .textRead2 ∨ a = .jsonDecode := by
  rcases h2 : env.send2 with e | r
  · simp [fetch2Run, h2] at h
    exact .inl ⟨e, h.symm⟩
  · cases hst : isSuccess r.status with
    | true =>
      rcases hb : r.body with _ | b
      · simp [fetch2Run, h2, hst, hb] at h
        exact .inr (.inl h.symm)
      · rcases hp : b.parsed.bind decodeApiResponse with _ | api
        · simp [fetch2Run, h2, hst, hb, hp] at h
          exact .inr (.inr h.symm)
        · simp [fetch2Run, h2, hst, hb, hp] at h
    | false => simp [fetch2Run, h2, hst] at h

lemma restRun_eq (env : Env) :
    restRun env = ⟨Event.systemReport (systemInfoOf env.sys) ::
      Event.uptimeLine env.printUptime (convert_seconds env.sys.uptime) ::
      (seqRun (fetch1Run env) (fetch2Run env)).events,
      (seqRun (fetch1Run env) (fetch2Run env)).abort⟩ := by
  rw [restRun, seqRun_none (sysRun_abort env), sysRun_eq]
  rfl

/-! ### Claims -/

/-- C5: for every uptime `s`, `convert_seconds s = (days, hours, minutes,
seconds)` satisfies `days*86400 + hours*3600 + minutes*60 + seconds = s`
with `hours < 24`, `minutes < 60`, `seconds < 60` (lower bounds are
automatic on `Nat`); in particular `convert_seconds 0 = (0,0,0,0)` and
`convert_seconds 90061 = (1,1,1,1)`. -/
theorem convert_seconds_correct :
    (∀ s : Nat,
      (convert_seconds s).1 * 86400 + (convert_seconds s).2.1 * 3600 +
        (convert_seconds s).2.2.1 * 60 + (convert_seconds s).2.2.2 = s ∧
      (convert_seconds s).2.1 < 24 ∧
      (convert_seconds s).2.2.1 < 60 ∧
      (convert_seconds s).2.2.2 < 60) ∧
    convert_seconds 0 = (0, 0, 0, 0) ∧
    convert_seconds 90061 = (1, 1, 1, 1) := by
  refine ⟨fun s => ?_, rfl, rfl⟩
  simp only [convert_seconds]
  omega

/-- C6: for every byte count `b`, `bytes_to_gb b` is exactly `b / 2^30`
(the source divides by `1024^3`, which equals `2^30`), and
`bytes_to_gb 0 = 0`; division is exact under the file's rational model of
`f64`. -/
theorem bytes_to_gb_exact :
    (∀ b : Nat, bytes_to_gb b = (b : ℚ) / 2 ^ 30) ∧ bytes_to_gb 0 = 0 := by
  constructor
  · intro b
    norm_num [bytes_to_gb]
  · simp [bytes_to_gb]

/-- C9: the host-telemetry read is infallible: for every platform state it
returns a snapshot (never `none`), each optional OS identity field passes
through as-is (absent stays `None`), and disk enumeration never fails the
read (one converted record per reported disk). -/
theorem host_read_infallible (env : SysEnv) :
    get_system_info env = some
      { total_memory := bytes_to_gb env.total_memory
        used_memory := bytes_to_gb env.used_memory
        total_swap := bytes_to_gb env.total_swap
        used_swap := bytes_to_gb env.used_swap
        system_name := env.system_name
        kernel_version := env.kernel_version
        os_version := env.os_version
        host_name := env.host_name
        uptime := env.uptime
        disks := env.disks.map diskInfoOfRaw
        average_cpu_usage := averageCpuUsage env.cpus } :=
  get_system_info_eq env

/-- C7: when zero logical cores are reported the average CPU usage in the
host snapshot is 0 (no division is performed); with at least one core it is
the mean of the per-core usage percentages. -/
theorem average_cpu_usage_spec (env : SysEnv) :
    (env.cpus = [] →
      (get_system_info env).map SystemInfo.average_cpu_usage = some 0) ∧
    (env.cpus ≠ [] →
      (get_system_info env).map SystemInfo.average_cpu_usage =
        some (env.cpus.sum / (env.cpus.length : ℚ))) := by
  constructor
  · intro h
    simp [get_system_info_eq, systemInfoOf, averageCpuUsage, h]
  · intro h
    have hsum : env.cpus.foldl (fun acc u => acc + u) 0 = env.cpus.sum :=
      List.sum_eq_foldl.symm
    simp [get_system_info_eq, systemInfoOf, averageCpuUsage, h, hsum]

/-- Witness for C7: on an environment reporting zero cores the average is 0;
on one reporting two cores it is their mean. -/
theorem average_cpu_usage_spec_witness :
    (get_system_info sysEnvA).map SystemInfo.average_cpu_usage = some 0 ∧
    (get_system_info sysEnvB).map SystemInfo.average_cpu_usage =
      some (sysEnvB.cpus.sum / (sysEnvB.cpus.length : ℚ)) :=
  ⟨(average_cpu_usage_spec sysEnvA).1 rfl,
   (average_cpu_usage_spec sysEnvB).2 (by simp [sysEnvB, sysEnvA])⟩

/-- C10: the uptime line always shows the decomposition of the uptime that
was captured in the host snapshot next to a raw seconds value obtained from
a second, independent uptime query at print time, and there is a run in
which the printed raw seconds differ from the sum of the printed
decomposition. -/
theorem uptime_line_mismatch :
    (∀ env : Env,
      Event.uptimeLine env.printUptime (convert_seconds env.sys.uptime)
        ∈ (mainRun env).events) ∧
    (∃ env : Env, ∃ raw dhms, Event.uptimeLine raw dhms ∈ (mainRun env).events ∧
      raw ≠ dhms.1 * 86400 + dhms.2.1 * 3600 + dhms.2.2.1 * 60 + dhms.2.2.2) := by
  have hmem : ∀ env : Env,
      Event.uptimeLine env.printUptime (convert_seconds env.sys.uptime)
        ∈ (mainRun env).events := by
    intro env
    rw [mainRun_eq]
    simp [sysRun_eq]
  exact ⟨hmem, envBase, envBase.printUptime, convert_seconds envBase.sys.uptime,
    hmem envBase, by decide⟩

/-- C8: in the GPU reader, when exactly one sub-query fails the whole read
aborts with `GpuError.QueryFailed` naming that field; and a successful read
implies every sub-query succeeded, so a partial snapshot is never
returned. -/
theorem gpu_query_failure_aborts :
    (∀ (env : NvmlEnv) (dev : GpuDevice) (f : GpuField),
      env.initOk = true → env.device0 = some dev →
      (∀ g, queryOk dev g = true ↔ g ≠ f) →
      get_gpu_info env = .error (.QueryFailed f)) ∧
    (∀ (env : NvmlEnv) (info : GpuInfo),
      get_gpu_info env = .ok info →
      ∃ dev, env.device0 = some dev ∧ ∀ g, queryOk dev g = true) := by
  constructor
  · intro env dev f hinit hdev h
    obtain ⟨pl, mi, pu, te, gc, mc, nm, nc, bw⟩ := dev
    have h1 := h .powerLimit
    have h2 := h .memoryInfo
    have h3 := h .powerUsage
    have h4 := h .temperature
    have h5 := h .graphicsClock
    have h6 := h .memoryClock
    have h7 := h .name
    have h8 := h .numCores
    have h9 := h .memoryBusWidth
    simp only [queryOk] at h1 h2 h3 h4 h5 h6 h7 h8 h9
    cases f with
    | powerLimit =>
      have hn : pl = none := by simpa using h1
      simp [get_gpu_info, hinit, hdev, hn]
    | memoryInfo =>
      obtain ⟨v1, hv1⟩ := Option.isSome_iff_exists.mp (h1.mpr (by decide))
      have hn : mi = none := by simpa using h2
      simp [get_gpu_info, hinit, hdev, hv1, hn]
    | powerUsage =>
      obtain ⟨v1, hv1⟩ := Option.isSome_iff_exists.mp (h1.mpr (by decide))
      obtain ⟨v2, hv2⟩ := Option.isSome_iff_exists.mp (h2.mpr (by decide))
      have hn : pu = none := by simpa using h3
      simp [get_gpu_info, hinit, hdev, hv1, hv2, hn]
    | temperature =>
      obtain ⟨v1, hv1⟩ := Option.isSome_iff_exists.mp (h1.mpr (by decide))
      obtain ⟨v2, hv2⟩ := Option.isSome_iff_exists.mp (h2.mpr (by decide))
      obtain ⟨v3, hv3⟩ := Option.isSome_iff_exists.mp (h3.mpr (by decide))
      have hn : te = none := by simpa using h4
      simp [get_gpu_info, hinit, hdev, hv1, hv2, hv3, hn]
    | graphicsClock =>
      obtain ⟨v1, hv1⟩ := Option.isSome_iff_exists.mp (h1.mpr (by decide))
      obtain ⟨v2, hv2⟩ := Option.isSome_iff_exists.mp (h2.mpr (by decide))
      obtain ⟨v3, hv3⟩ := Option.isSome_iff_exists.mp (h3.mpr (by decide))
      obtain ⟨v4, hv4⟩ := Option.isSome_iff_exists.mp (h4.mpr (by decide))
      have hn : gc = none := by simpa using h5
      simp [get_gpu_info, hinit, hdev, hv1, hv2, hv3, hv4, hn]
    | memoryClock =>
      obtain ⟨v1, hv1⟩ := Option.isSome_iff_exists.mp (h1.mpr (by decide))
      obtain ⟨v2, hv2⟩ := Option.isSome_iff_exists.mp (h2.mpr (by decide))
      obtain ⟨v3, hv3⟩ := Option.isSome_iff_exists.mp (h3.mpr (by decide))
      obtain ⟨v4, hv4⟩ := Option.isSome_iff_exists.mp (h4.mpr (by decide))
      obtain ⟨v5, hv5⟩ := Option.isSome_iff_exists.mp (h5.mpr (by decide))
      have hn : mc = none := by simpa using h6
      simp [get_gpu_info, hinit, hdev, hv1, hv2, hv3, hv4, hv5, hn]
    | name =>
      obtain ⟨v1, hv1⟩ := Option.isSome_iff_exists.mp (h1.mpr (by decide))
      obtain ⟨v2, hv2⟩ := Option.isSome_iff_exists.mp (h2.mpr (by decide))
      obtain ⟨v3, hv3⟩ := Option.isSome_iff_exists.mp (h3.mpr (by decide))
      obtain ⟨v4, hv4⟩ := Option.isSome_iff_exists.mp (h4.mpr (by decide))
      obtain ⟨v5, hv5⟩ := Option.isSome_iff_exists.mp (h5.mpr (by decide))
      obtain ⟨v6, hv6⟩ := Option.isSome_iff_exists.mp (h6.mpr (by decide))
      have hn : nm = none := by simpa using h7
      simp [get_gpu_info, hinit, hdev, hv1, hv2, hv3, hv4, hv5, hv6, hn]
    | numCores =>
      obtain ⟨v1, hv1⟩ := Option.isSome_iff_exists.mp (h1.mpr (by decide))
      obtain ⟨v2, hv2⟩ := Option.isSome_iff_exists.mp (h2.mpr (by decide))
      obtain ⟨v3, hv3⟩ := Option.isSome_iff_exists.mp (h3.mpr (by decide))
      obtain ⟨v4, hv4⟩ := Option.isSome_iff_exists.mp (h4.mpr (by decide))
      obtain ⟨v5, hv5⟩ := Option.isSome_iff_exists.mp (h5.mpr (by decide))
      obtain ⟨v6, hv6⟩ := Option.isSome_iff_exists.mp (h6.mpr (by decide))
      obtain ⟨v7, hv7⟩ := Option.isSome_iff_exists.mp (h7.mpr (by decide))
      have hn : nc = none := by simpa using h8
      simp [get_gpu_info, hinit, hdev, hv1, hv2, hv3, hv4, hv5, hv6, hv7, hn]
    | memoryBusWidth =>
      obtain ⟨v1, hv1⟩ := Option.isSome_iff_exists.mp (h1.mpr (by decide))
      obtain ⟨v2, hv2⟩ := Option.isSome_iff_exists.mp (h2.mpr (by decide))
      obtain ⟨v3, hv3⟩ := Option.isSome_iff_exists.mp (h3.mpr (by decide))
      obtain ⟨v4, hv4⟩ := Option.isSome_iff_exists.mp (h4.mpr (by decide))
      obtain ⟨v5, hv5⟩ := Option.isSome_iff_exists.mp (h5.mpr (by decide))
      obtain ⟨v6, hv6⟩ := Option.isSome_iff_exists.mp (h6.mpr (by decide))
      obtain ⟨v7, hv7⟩ := Option.isSome_iff_exists.mp (h7.mpr (by decide))
      obtain ⟨v8, hv8⟩ := Option.isSome_iff_exists.mp (h8.mpr (by decide))
      have hn : bw = none := by simpa using h9
      simp [get_gpu_info, hinit, hdev, hv1, hv2, hv3, hv4, hv5, hv6, hv7, hv8, hn]
  · intro env info hok
    obtain ⟨init, device0⟩ := env
    cases init with
    | false => simp [get_gpu_info] at hok
    | true =>
      cases device0 with
      | none => simp [get_gpu_info] at hok
      | some dev =>
        obtain ⟨pl, mi, pu, te, gc, mc, nm, nc, bw⟩ := dev
        cases pl with
        | none => simp [get_gpu_info] at hok
        | some v1 =>
          cases mi with
          | none => simp [get_gpu_info] at hok
          | some v2 =>
            cases pu with
            | none => simp [get_gpu_info] at hok
            | some v3 =>
              cases te with
              | none => simp [get_gpu_info] at hok
              | some v4 =>
                cases gc with
                | none => simp [get_gpu_info] at hok
                | some v5 =>
                  cases mc with
                  | none => simp [get_gpu_info] at hok
                  | some v6 =>
                    cases nm with
                    | none => simp [get_gpu_info] at hok
                    | some v7 =>
                      cases nc with
                      | none => simp [get_gpu_info] at hok
                      | some v8 =>
                        cases bw with
                        | none => simp [get_gpu_info] at hok
                        | some v9 =>
                          exact ⟨_, rfl, fun g => by cases g <;> rfl⟩

/-- Witness for C8: with only the name query failing the read surfaces
`QueryFailed name`; with every query succeeding the read returns a full
snapshot and indeed every sub-query succeeded. -/
theorem gpu_query_failure_aborts_witness :
    get_gpu_info ⟨true, some devNameFails⟩ = .error (.QueryFailed .name) ∧
    ∃ dev, (⟨true, some devAllOk⟩ : NvmlEnv).device0 = some dev ∧
      ∀ g, queryOk dev g = true :=
  ⟨gpu_query_failure_aborts.1 ⟨true, some devNameFails⟩ devNameFails .name rfl rfl
      (fun g => by cases g <;> simp [queryOk, devNameFails, devAllOk]),
   gpu_query_failure_aborts.2 ⟨true, some devAllOk⟩ gpuInfoOk rfl⟩

/-- C1: when the GPU read fails, `main` prints a single error line and
continues: the trace starts with exactly that error line followed by the
rest of the run, the abort status is whatever the rest of the run produces
(never the GPU error), the host snapshot is reported, the first weather
fetch runs, and if the first fetch does not abort the second runs too. -/
theorem gpu_error_not_fatal (env : Env) (e : GpuError)
    (h : get_gpu_info env.nvml = .error e) :
    (mainRun env).events = .gpuErrorLine e :: (restRun env).events ∧
    (mainRun env).abort = (restRun env).abort ∧
    (∃ info, Event.systemReport info ∈ (mainRun env).events) ∧
    ranFetch1 (mainRun env) ∧
    ((fetch1Run env).abort = none → ranFetch2 (mainRun env)) := by
  have hg : gpuRun env = ⟨[.gpuErrorLine e], none⟩ := by simp [gpuRun, h]
  have hm : mainRun env =
      ⟨.gpuErrorLine e :: (restRun env).events, (restRun env).abort⟩ := by
    rw [mainRun, seqRun_none (gpuRun_abort env), hg]
    rfl
  refine ⟨by rw [hm], by rw [hm], ?_, ?_, ?_⟩
  · exact ⟨systemInfoOf env.sys, by rw [hm, restRun_eq]; simp⟩
  · simp only [ranFetch1]
    cases ha : (fetch1Run env).abort with
    | some a =>
      have habort : (mainRun env).abort = some a := by
        rw [hm, restRun_eq]
        simp [seqRun, ha]
      rcases fetch1_abort_shape env a ha with ⟨e1, rfl⟩ | rfl
      · exact .inr (.inr (.inl ⟨e1, habort⟩))
      · exact .inr (.inr (.inr habort))
    | none =>
      rcases fetch1_shape env ha with ⟨b, hb⟩ | ⟨s, hs⟩
      · exact .inl ⟨b, by rw [hm, restRun_eq]; simp [seqRun_none ha, hb]⟩
      · exact .inr (.inl ⟨s, by rw [hm, restRun_eq]; simp [seqRun_none ha, hs]⟩)
  · intro h1
    simp only [ranFetch2]
    cases ha : (fetch2Run env).abort with
    | some a =>
      have habort : (mainRun env).abort = some a := by
        rw [hm, restRun_eq, seqRun_none h1]
        exact ha
      rcases fetch2_abort_shape env a ha with ⟨e2, rfl⟩ | rfl | rfl
      · exact .inr (.inr (.inl ⟨e2, habort⟩))
      · exact .inr (.inr (.inr (.inl habort)))
      · exact .inr (.inr (.inr (.inr habort)))
    | none =>
      rcases fetch2_shape env ha with ⟨api, hb⟩ | ⟨s, hs⟩
      · exact .inl ⟨api, by rw [hm, restRun_eq, seqRun_none h1]; simp [hb]⟩
      · exact .inr (.inl ⟨s, by rw [hm, restRun_eq, seqRun_none h1]; simp [hs]⟩)

/-- Witness for C1: a run whose GPU library fails to initialize still
reports the host snapshot and performs both fetches. -/
theorem gpu_error_not_fatal_witness :
    (mainRun envGpuFail).events = .gpuErrorLine .InitFailed :: (restRun envGpuFail).events ∧
    (mainRun envGpuFail).abort = (restRun envGpuFail).abort ∧
    (∃ info, Event.systemReport info ∈ (mainRun envGpuFail).events) ∧
    ranFetch1 (mainRun envGpuFail) ∧
    ((fetch1Run envGpuFail).abort = none → ranFetch2 (mainRun envGpuFail)) :=
  gpu_error_not_fatal envGpuFail .InitFailed rfl

/-- C2: a transport-level error on either `send()` is fatal: with the first
request failing, the run aborts with that error right after the host report
(no fetch output at all, and the second fetch never runs); with the first
request completing and the second failing, the run aborts with the second
error after the first fetch's output. -/
theorem transport_error_fatal (env : Env) (e : TransportError) :
    (env.send1 = .error e →
      (mainRun env).abort = some (.transport1 e) ∧
      (mainRun env).events = (gpuRun env).events ++ (sysRun env).events ∧
      ¬ ranFetch2 (mainRun env)) ∧
    (∀ r, env.send1 = .ok r → (fetch1Run env).abort = none →
      env.send2 = .error e →
      (mainRun env).abort = some (.transport2 e) ∧
      (mainRun env).events =
        (gpuRun env).events ++ ((sysRun env).events ++ (fetch1Run env).events)) := by
  constructor
  · intro h
    have hf1 : fetch1Run env = ⟨[], some (.transport1 e)⟩ := by
      simp [fetch1Run, h]
    have h12 : seqRun (fetch1Run env) (fetch2Run env) =
        ⟨[], some (.transport1 e)⟩ := by
      rw [hf1]
      rfl
    refine ⟨by rw [mainRun_eq, h12], by rw [mainRun_eq, h12]; simp, ?_⟩
    intro hr2
    rcases hr2 with ⟨api, hmem⟩ | ⟨s, hmem⟩ | ⟨e2, habort⟩ | habort | habort
    · rw [mainRun_eq, h12] at hmem
      rcases gpuRun_shape env with ⟨g, hg⟩ | ⟨e2, hg⟩ <;>
        simp [hg, sysRun_eq] at hmem
    · rw [mainRun_eq, h12] at hmem
      rcases gpuRun_shape env with ⟨g, hg⟩ | ⟨e2, hg⟩ <;>
        simp [hg, sysRun_eq] at hmem
    · rw [mainRun_eq, h12] at habort
      simp at habort
    · rw [mainRun_eq, h12] at habort
      simp at habort
    · rw [mainRun_eq, h12] at habort
      simp at habort
  · intro r h1 hf1none h2
    have hf2 : fetch2Run env = ⟨[], some (.transport2 e)⟩ := by
      simp [fetch2Run, h2]
    have h12 : seqRun (fetch1Run env) (fetch2Run env) =
        ⟨(fetch1Run env).events, some (.transport2 e)⟩ := by
      rw [seqRun_none hf1none, hf2]
      simp
    exact ⟨by rw [mainRun_eq, h12], by rw [mainRun_eq, h12]⟩

/-- Witness for C2: a DNS failure on the first request aborts the run with
that error; a TLS failure on the second request aborts it after the first
fetch printed its (non-2xx) status. -/
theorem transport_error_fatal_witness :
    ((mainRun envSend1Fail).abort = some (.transport1 ⟨"dns lookup failed"⟩) ∧
     (mainRun envSend1Fail).events =
       (gpuRun envSend1Fail).events ++ (sysRun envSend1Fail).events ∧
     ¬ ranFetch2 (mainRun envSend1Fail)) ∧
    ((mainRun envSend2Fail).abort = some (.transport2 ⟨"tls handshake failed"⟩) ∧
     (mainRun envSend2Fail).events =
       (gpuRun envSend2Fail).events ++
         ((sysRun envSend2Fail).events ++ (fetch1Run envSend2Fail).events)) :=
  ⟨(transport_error_fatal envSend1Fail ⟨"dns lookup failed"⟩).1 rfl,
   (transport_error_fatal envSend2Fail ⟨"tls handshake failed"⟩).2
     ⟨404, none⟩ rfl rfl rfl⟩

/-- C3: a non-2xx status from the city-weather endpoint is recovered: the
status line is printed, no structured weather record is produced, nothing
is parsed, and the run neither errors nor exits (no abort). -/
theorem fetch2_bad_status_recovered (env : Env) (r : Resp2)
    (hs : env.send2 = .ok r) (hbad : isSuccess r.status = false)
    (h1 : (fetch1Run env).abort = none) :
    (mainRun env).abort = none ∧
    Event.fetch2BadStatus r.status ∈ (mainRun env).events ∧
    ∀ api, Event.fetch2Report api ∉ (mainRun env).events := by
  have hf2 : fetch2Run env = ⟨[.fetch2BadStatus r.status], none⟩ := by
    simp [fetch2Run, hs, hbad]
  have h12 : seqRun (fetch1Run env) (fetch2Run env) =
      ⟨(fetch1Run env).events ++ [.fetch2BadStatus r.status], none⟩ := by
    rw [seqRun_none h1, hf2]
  refine ⟨by rw [mainRun_eq, h12], by rw [mainRun_eq, h12]; simp, ?_⟩
  intro api hmem
  rw [mainRun_eq, h12] at hmem
  rcases gpuRun_shape env with ⟨g, hg⟩ | ⟨e2, hg⟩ <;>
    rcases fetch1_shape env h1 with ⟨b, hf⟩ | ⟨s, hf⟩ <;>
      simp [hg, hf, sysRun_eq] at hmem

/-- Witness for C3: a 503 from the city-weather endpoint leaves the run
abort-free, prints the status, and produces no structured record. -/
theorem fetch2_bad_status_recovered_witness :
    (mainRun envBadStatus2).abort = none ∧
    Event.fetch2BadStatus 503 ∈ (mainRun envBadStatus2).events ∧
    ∀ api, Event.fetch2Report api ∉ (mainRun envBadStatus2).events :=
  fetch2_bad_status_recovered envBadStatus2 ⟨503, some ⟨"oops", none⟩⟩ rfl rfl rfl

/-- C4: a 2xx city-weather response whose body does not decode to the
report schema (invalid JSON, missing field, wrong type) is fatal: the run
aborts at the decode and no structured report event is produced. -/
theorem fetch2_parse_fatal (env : Env) (r : Resp2) (b : Body2)
    (hs : env.send2 = .ok r) (hok : isSuccess r.status = true)
    (hb : r.body = some b) (hp : b.parsed.bind decodeApiResponse = none)
    (h1 : (fetch1Run env).abort = none) :
    (mainRun env).abort = some .jsonDecode ∧
    ∀ api, Event.fetch2Report api ∉ (mainRun env).events := by
  have hf2 : fetch2Run env = ⟨[], some .jsonDecode⟩ := by
    simp [fetch2Run, hs, hok, hb, hp]
  have h12 : seqRun (fetch1Run env) (fetch2Run env) =
      ⟨(fetch1Run env).events, some .jsonDecode⟩ := by
    rw [seqRun_none h1, hf2]
    simp
  refine ⟨by rw [mainRun_eq, h12], ?_⟩
  intro api hmem
  rw [mainRun_eq, h12] at hmem
  rcases gpuRun_shape env with ⟨g, hg⟩ | ⟨e2, hg⟩ <;>
    rcases fetch1_shape env h1 with ⟨b2, hf⟩ | ⟨s, hf⟩ <;>
      simp [hg, hf, sysRun_eq] at hmem

/-- Witness for C4: a 200 response whose body is an object missing every
required field makes the run abort at the serde decode. -/
theorem fetch2_parse_fatal_witness :
    (mainRun envBadJson2).abort = some .jsonDecode ∧
    ∀ api, Event.fetch2Report api ∉ (mainRun envBadJson2).events :=
  fetch2_parse_fatal envBadJson2 ⟨200, some ⟨"x", some (Json.obj [])⟩⟩
    ⟨"x", some (Json.obj [])⟩ rfl rfl rfl rfl rfl

end SysDetails
